import Mathlib

/-!
Verification of the KubeSphere DevOps project-credential handlers
(package `projects`, file with `CreateCredentialHandler`, `DeleteCredentialHandler`,
`UpdateCredentialHandler`, `GetCredentialHandler`, `GetCredentialsHandler`).

The handlers are embedded as pure functions over an explicit state holding
the remote Jenkins credential store and the local ownership table, plus an
environment that injects the outcomes of the fallible external calls
(remote HTTP API and relational store).  Each handler returns the HTTP
response it writes, the final state, and a trace of the external actions it
performed, in order.
-/

namespace Devops

/-- Credential type constants, source const block. -/
def CredentialTypeUsernamePassword : String := "username_password"

def CredentialTypeSsh : String := "ssh"

def CredentialTypeSecretText : String := "secret_text"

def CredentialTypeKubeConfig : String := "kubeconfig"

/-- Model of the untyped JSON `content` map of a `CredentialRequest`.  The map
determines, for each type-specific payload struct, whether `mapstructure.Decode`
fails and which fields it sets (a field key absent from the map leaves the
target struct field unchanged, which is how `mapstructure` behaves). -/
structure Content where
  decodeFails : Bool := false
  id : Option String := none
  username : Option String := none
  password : Option String := none
  passphrase : Option String := none
  private_key : Option String := none
  secret : Option String := none
  content : Option String := none
  description : Option String := none
deriving Repr, DecidableEq

/-- Source struct `CredentialRequest` (type, domain, content). -/
structure CredentialRequest where
  type : String
  domain : String
  content : Content
deriving Repr, DecidableEq

/-- Source struct `UsernamePasswordCredentialRequest`. -/
structure UsernamePasswordCredentialRequest where
  id : String
  username : String
  password : String
  description : String
deriving Repr, DecidableEq

def UsernamePasswordCredentialRequest.empty : UsernamePasswordCredentialRequest :=
  ⟨"", "", "", ""⟩

/-- Source struct `SshCredentialRequest`. -/
structure SshCredentialRequest where
  id : String
  username : String
  passphrase : String
  private_key : String
  description : String
deriving Repr, DecidableEq

def SshCredentialRequest.empty : SshCredentialRequest := ⟨"", "", "", "", ""⟩

/-- Source struct `SecretTextCredentialRequest`. -/
structure SecretTextCredentialRequest where
  id : String
  secret : String
  description : String
deriving Repr, DecidableEq

def SecretTextCredentialRequest.empty : SecretTextCredentialRequest := ⟨"", "", ""⟩

/-- Source struct `KubeconfigCredentialRequest`. -/
structure KubeconfigCredentialRequest where
  id : String
  content : String
  description : String
deriving Repr, DecidableEq

def KubeconfigCredentialRequest.empty : KubeconfigCredentialRequest := ⟨"", "", ""⟩

/-- Source struct `DeleteCredentialRequest` (a single `domain` field). -/
structure DeleteCredentialRequest where
  domain : String
deriving Repr, DecidableEq

/-- Model of `mapstructure.Decode(request.Content, UPRequest)`. -/
def mapDecodeUsernamePassword (c : Content) (init : UsernamePasswordCredentialRequest) :
    Option UsernamePasswordCredentialRequest :=
  if c.decodeFails then none else
    some ⟨c.id.getD init.id, c.username.getD init.username,
      c.password.getD init.password, c.description.getD init.description⟩

/-- Model of `mapstructure.Decode(request.Content, SshRequest)`. -/
def mapDecodeSsh (c : Content) (init : SshCredentialRequest) :
    Option SshCredentialRequest :=
  if c.decodeFails then none else
    some ⟨c.id.getD init.id, c.username.getD init.username,
      c.passphrase.getD init.passphrase, c.private_key.getD init.private_key,
      c.description.getD init.description⟩

/-- Model of `mapstructure.Decode(request.Content, TextRequest)`. -/
def mapDecodeSecretText (c : Content) (init : SecretTextCredentialRequest) :
    Option SecretTextCredentialRequest :=
  if c.decodeFails then none else
    some ⟨c.id.getD init.id, c.secret.getD init.secret, c.description.getD init.description⟩

/-- Model of `mapstructure.Decode(request.Content, KubeconfigRequest)`. -/
def mapDecodeKubeconfig (c : Content) (init : KubeconfigCredentialRequest) :
    Option KubeconfigCredentialRequest :=
  if c.decodeFails then none else
    some ⟨c.id.getD init.id, c.content.getD init.content, c.description.getD init.description⟩

/-- Remote (Jenkins-owned) credential: identified by (domain, id) within the
project-scoped folder, and carrying the remote type name. -/
structure RemoteCred where
  domain : String
  id : String
  folder : String
  typeName : String
deriving Repr, DecidableEq

/-- Local ownership row `models.ProjectCredential`: columns
(project id, credential id, domain, creator, create time). -/
structure ProjectCredential where
  projectId : String
  credentialId : String
  domain : String
  creator : String
  createTime : Nat
deriving Repr, DecidableEq

/-- Modelled from the spec: `models.NewProjectCredential` is not under src/.
Per the spec data model the row holds (project id, credential id, domain,
creator, create time); wall-clock time is not modelled and is fixed to 0. -/
def NewProjectCredential (projectId credentialId domain creator : String) :
    ProjectCredential :=
  ⟨projectId, credentialId, domain, creator, 0⟩

/-- Combined state: the remote credential store and the local ownership table. -/
structure State where
  remote : List RemoteCred
  localRows : List ProjectCredential
deriving Repr, DecidableEq

/-- Errors produced by the external calls.  A `jenkins` error carries the
remote HTTP status; `dbNotFound` is `db.ErrNotFound` (= `dbr.ErrNotFound`);
`dbOther` is any other store error; `generic` is a locally built error. -/
inductive AppErr where
  | jenkins (code : Nat)
  | dbNotFound
  | dbOther (code : Nat)
  | generic
deriving Repr, DecidableEq

/-- Modelled from the spec: `stringutils.GetJenkinsStatusCode` is not under
src/.  Per the spec it is a passthrough translator mirroring the remote API
status code; for an error that carries no remote status it yields
an internal-server-error default. -/
def GetJenkinsStatusCode : AppErr → Nat
  | .jenkins code => code
  | _ => 500

/-- Role name for project owners. Modelled from the spec: the role constants
are not under src/; only membership in the allowed set matters. -/
def ProjectOwner : String := "owner"

/-- Role name for project maintainers, modelled like `ProjectOwner`. -/
def ProjectMaintainer : String := "maintainer"

/-- Modelled from the spec: `checkProjectUserInRole` is not under src/.  Per
the spec it authorizes the caller when their role in the project is one of the
allowed roles (here always owner or maintainer). -/
def checkProjectUserInRole (role : String) (allowed : List String) : Bool :=
  allowed.contains role

/-- Modelled from the spec: `CredentialTypeMap` is not under src/.  It maps
the remote system type name of a credential to one of the four supported type
tags; any other type name is absent from the Go map, which then yields the
empty string. -/
def CredentialTypeMap (typeName : String) : String :=
  if typeName = "SSH Username with private key" then CredentialTypeSsh
  else if typeName = "Username with password" then CredentialTypeUsernamePassword
  else if typeName = "Secret text" then CredentialTypeSecretText
  else if typeName = "Kubernetes configuration (kubeconfig)" then CredentialTypeKubeConfig
  else ""

/-- Remote type name recorded for a credential created through each of the
four payload classes (the inverse direction of `CredentialTypeMap`). -/
def remoteTypeNameOf (ty : String) : String :=
  if ty = CredentialTypeSsh then "SSH Username with private key"
  else if ty = CredentialTypeUsernamePassword then "Username with password"
  else if ty = CredentialTypeSecretText then "Secret text"
  else if ty = CredentialTypeKubeConfig then "Kubernetes configuration (kubeconfig)"
  else ""

/-- Environment: injected outcomes of the fallible external calls.  A `some`
value makes the corresponding call fail (for remote calls, with that remote
status code); `none` lets the call behave according to the modelled state. -/
structure Env where
  getCredErr : Option Nat := none
  createErr : Option Nat := none
  updateErr : Option Nat := none
  deleteErr : Option Nat := none
  listErr : Option Nat := none
  contentErr : Option Nat := none
  rawContent : String := ""
  dbInsertErr : Option AppErr := none
  dbDeleteErr : Option AppErr := none
  dbSelectErr : Option AppErr := none
  dbListErr : Option AppErr := none
deriving Repr, DecidableEq

/-- Trace events: the external actions a handler performs, in order, each
tagged with whether the call succeeded. -/
inductive Event where
  | decodeTop (ok : Bool)
  | authorize (ok : Bool)
  | decodePayload (ok : Bool)
  | remoteGet (ok : Bool)
  | remoteList (ok : Bool)
  | remoteGetContent (ok : Bool)
  | remoteCreate (ok : Bool)
  | remoteUpdate (ok : Bool)
  | remoteDelete (ok : Bool)
  | dbInsert (ok : Bool)
  | dbDelete (ok : Bool)
  | dbSelect (ok : Bool)
deriving Repr, DecidableEq

/-- Merged remote credential data and ownership data returned by the read
handlers.  Modelled from the spec: `formatCredentialResponse` is not under
src/; per the spec the response carries the remote credential data plus the
creator and create time from the ownership row when that row exists. -/
structure GetResponse where
  id : String
  typ : String
  domain : String
  creator : Option String
  createTime : Option Nat
  content : Option String
deriving Repr, DecidableEq

/-- Modelled from the spec: merge one remote credential with its optional
ownership row (creator and create time absent when the row is absent). -/
def formatCredentialResponse (cred : RemoteCred) (row : Option ProjectCredential) :
    GetResponse :=
  ⟨cred.id, CredentialTypeMap cred.typeName, cred.domain,
    row.map (fun r => r.creator), row.map (fun r => r.createTime), none⟩

/-- Modelled from the spec: `formatCredentialsResponse` is not under src/;
it merges each listed remote credential with its matching ownership row. -/
def formatCredentialsResponse (creds : List RemoteCred) (rows : List ProjectCredential) :
    List GetResponse :=
  creds.map (fun c =>
    formatCredentialResponse c (rows.find? (fun r =>
      r.projectId == c.folder && r.credentialId == c.id && r.domain == c.domain)))

/-- HTTP response written by a handler: `ok` is `WriteJson` of an id body,
`okCredential` and `okList` are `WriteJson` of read results, `error` is
`rest.Error` with the given status. -/
inductive Response where
  | ok (id : String)
  | okCredential (c : GetResponse)
  | okList (cs : List GetResponse)
  | error (status : Nat)
deriving Repr, DecidableEq

/-- Result of one handler run: response written, final state, action trace. -/
structure HResult where
  resp : Response
  state : State
  trace : List Event
deriving Repr, DecidableEq

/-- Model of `s.Ds.Jenkins.GetCredentialInFolder(domain, id, folder)`: with no
injected infrastructure failure it returns the stored credential, or a remote
404 error when none matches; it never returns both a credential and an error,
nor neither. -/
def getCredentialInFolder (env : Env) (domain id folder : String) (st : State) :
    Option RemoteCred × Option AppErr :=
  match env.getCredErr with
  | some code => (none, some (.jenkins code))
  | none =>
    match st.remote.find? (fun c => c.domain == domain && c.id == id && c.folder == folder) with
    | some c => (some c, none)
    | none => (none, some (.jenkins 404))

/-- Model of `LoadOne` on the ownership table with the three equality
conditions used by `GetCredentialHandler` (lines 514-518): an absent row is
`db.ErrNotFound`. -/
def dbSelectOne (env : Env) (projectId credentialId domain : String) (st : State) :
    Except AppErr ProjectCredential :=
  match env.dbSelectErr with
  | some e => .error e
  | none =>
    match st.localRows.find? (fun r =>
        r.projectId == projectId && r.credentialId == credentialId && r.domain == domain) with
    | some r => .ok r
    | none => .error .dbNotFound

/-- Tail of each create branch after the payload decode (source lines
155-187; the four branches are copies of this shape, differing only in the
decoded struct): existence check, duplicate-id 409, remote create, ownership
row insert, JSON response. -/
def createWithId (env : Env) (domain credentialId ty projectId operator : String)
    (st : State) (tr : List Event) : HResult :=
  match getCredentialInFolder env domain credentialId projectId st with
  | (some _, _) =>
    -- credential != nil: "credential id [...] has been used"
    ⟨.error 409, st, tr ++ [.remoteGet true]⟩
  | (none, some e) =>
    if GetJenkinsStatusCode e ≠ 404 then
      ⟨.error 400, st, tr ++ [.remoteGet false]⟩
    else
      createDo env domain credentialId ty projectId operator st (tr ++ [.remoteGet false])
  | (none, none) => createDo env domain credentialId ty projectId operator st (tr ++ [.remoteGet true])
where
  /-- Remote creation call followed by the ownership-row insert. -/
  createDo (env : Env) (domain credentialId ty projectId operator : String)
      (st : State) (tr : List Event) : HResult :=
    match env.createErr with
    | some code =>
      ⟨.error (GetJenkinsStatusCode (.jenkins code)), st, tr ++ [.remoteCreate false]⟩
    | none =>
      let st1 : State :=
        { st with remote := ⟨domain, credentialId, projectId, remoteTypeNameOf ty⟩ :: st.remote }
      let row := NewProjectCredential projectId credentialId domain operator
      match env.dbInsertErr with
      | some e =>
        ⟨.error (GetJenkinsStatusCode e), st1, tr ++ [.remoteCreate true, .dbInsert false]⟩
      | none =>
        ⟨.ok credentialId, { st1 with localRows := row :: st1.localRows },
          tr ++ [.remoteCreate true, .dbInsert true]⟩

/-- Source `CreateCredentialHandler` (lines 126-329).  `body = none` models a
JSON decode failure of the request body; `role` is the role the caller holds
in the project. -/
def CreateCredentialHandler (env : Env) (projectId operator role : String)
    (body : Option CredentialRequest) (st : State) : HResult :=
  match body with
  | none => ⟨.error 400, st, [.decodeTop false]⟩
  | some request =>
    if checkProjectUserInRole role [ProjectOwner, ProjectMaintainer] then
      let tr := [Event.decodeTop true, Event.authorize true]
      if request.type = CredentialTypeUsernamePassword then
        match mapDecodeUsernamePassword request.content .empty with
        | none => ⟨.error 400, st, tr ++ [.decodePayload false]⟩
        | some upReq =>
          createWithId env request.domain upReq.id CredentialTypeUsernamePassword
            projectId operator st (tr ++ [.decodePayload true])
      else if request.type = CredentialTypeSsh then
        match mapDecodeSsh request.content .empty with
        | none => ⟨.error 400, st, tr ++ [.decodePayload false]⟩
        | some sshReq =>
          createWithId env request.domain sshReq.id CredentialTypeSsh
            projectId operator st (tr ++ [.decodePayload true])
      else if request.type = CredentialTypeSecretText then
        match mapDecodeSecretText request.content .empty with
        | none => ⟨.error 400, st, tr ++ [.decodePayload false]⟩
        | some textReq =>
          createWithId env request.domain textReq.id CredentialTypeSecretText
            projectId operator st (tr ++ [.decodePayload true])
      else if request.type = CredentialTypeKubeConfig then
        match mapDecodeKubeconfig request.content .empty with
        | none => ⟨.error 400, st, tr ++ [.decodePayload false]⟩
        | some kubeReq =>
          createWithId env request.domain kubeReq.id CredentialTypeKubeConfig
            projectId operator st (tr ++ [.decodePayload true])
      else
        -- default: "error unsupport credential type", status from the translator
        ⟨.error (GetJenkinsStatusCode .generic), st, tr⟩
    else ⟨.error 403, st, [.decodeTop true, .authorize false]⟩

/-- Source `DeleteCredentialHandler` (lines 331-374): decode, authorize,
remote deletion, then local row deletion with the `"_"` substitution for a
null domain, ignoring `db.ErrNotFound`. -/
def DeleteCredentialHandler (env : Env) (projectId credentialId operator role : String)
    (body : Option DeleteCredentialRequest) (st : State) : HResult :=
  match body with
  | none => ⟨.error 400, st, [.decodeTop false]⟩
  | some request =>
    if checkProjectUserInRole role [ProjectOwner, ProjectMaintainer] then
      let tr := [Event.decodeTop true, Event.authorize true]
      match env.deleteErr with
      | some code =>
        ⟨.error (GetJenkinsStatusCode (.jenkins code)), st, tr ++ [.remoteDelete false]⟩
      | none =>
        let st1 : State :=
          { st with remote := st.remote.filter (fun c =>
              !(c.domain == request.domain && c.id == credentialId && c.folder == projectId)) }
        let rowDomain := if !(request.domain == "") then request.domain else "_"
        let keep := fun (r : ProjectCredential) =>
          !(r.projectId == projectId && r.credentialId == credentialId && r.domain == rowDomain)
        match env.dbDeleteErr with
        | some e =>
          if e = .dbNotFound then
            ⟨.ok credentialId, st1, tr ++ [.remoteDelete true, .dbDelete false]⟩
          else
            ⟨.error (GetJenkinsStatusCode e), st1, tr ++ [.remoteDelete true, .dbDelete false]⟩
        | none =>
          ⟨.ok credentialId, { st1 with localRows := st1.localRows.filter keep },
            tr ++ [.remoteDelete true, .dbDelete true]⟩
    else ⟨.error 403, st, [.decodeTop true, .authorize false]⟩

/-- Remote update call shared by the four update branches (the branches are
copies differing only in the decoded struct and in how a failure status is
computed: the ssh branch uses a constant 500, the others the translator). -/
def updateDo (env : Env) (failStatus : AppErr → Nat) (credentialId : String)
    (st : State) (tr : List Event) : HResult :=
  match env.updateErr with
  | some code =>
    ⟨.error (failStatus (.jenkins code)), st, tr ++ [.remoteUpdate false]⟩
  | none => ⟨.ok credentialId, st, tr ++ [.remoteUpdate true]⟩

/-- Source `UpdateCredentialHandler` (lines 376-491): decode, authorize,
fetch the stored credential, dispatch on `CredentialTypeMap` of its remote
type name (the request type field is never read), decode the payload into a
struct whose id is preset to the path credential id, remote update, JSON
response.  No local-store operation is performed. -/
def UpdateCredentialHandler (env : Env) (projectId credentialId operator role : String)
    (body : Option CredentialRequest) (st : State) : HResult :=
  match body with
  | none => ⟨.error 400, st, [.decodeTop false]⟩
  | some request =>
    if checkProjectUserInRole role [ProjectOwner, ProjectMaintainer] then
      let tr := [Event.decodeTop true, Event.authorize true]
      match getCredentialInFolder env request.domain credentialId projectId st with
      | (none, some e) =>
        ⟨.error (GetJenkinsStatusCode e), st, tr ++ [.remoteGet false]⟩
      | (none, none) =>
        -- not reachable with this client model; the Go code would dereference nil here
        ⟨.error 400, st, tr ++ [.remoteGet true]⟩
      | (some jenkinsCredential, _) =>
        let tr := tr ++ [Event.remoteGet true]
        let credentialType := CredentialTypeMap jenkinsCredential.typeName
        if credentialType = CredentialTypeUsernamePassword then
          match mapDecodeUsernamePassword request.content
              { UsernamePasswordCredentialRequest.empty with id := credentialId } with
          | none => ⟨.error 400, st, tr ++ [.decodePayload false]⟩
          | some upReq =>
            updateDo env GetJenkinsStatusCode upReq.id st (tr ++ [.decodePayload true])
        else if credentialType = CredentialTypeSsh then
          match mapDecodeSsh request.content
              { SshCredentialRequest.empty with id := credentialId } with
          | none => ⟨.error 400, st, tr ++ [.decodePayload false]⟩
          | some sshReq =>
            -- source line 436: the ssh branch reports http.StatusInternalServerError
            updateDo env (fun _ => 500) sshReq.id st (tr ++ [.decodePayload true])
        else if credentialType = CredentialTypeSecretText then
          match mapDecodeSecretText request.content
              { SecretTextCredentialRequest.empty with id := credentialId } with
          | none => ⟨.error 400, st, tr ++ [.decodePayload false]⟩
          | some textReq =>
            updateDo env GetJenkinsStatusCode textReq.id st (tr ++ [.decodePayload true])
        else if credentialType = CredentialTypeKubeConfig then
          match mapDecodeKubeconfig request.content
              { KubeconfigCredentialRequest.empty with id := credentialId } with
          | none => ⟨.error 400, st, tr ++ [.decodePayload false]⟩
          | some kubeReq =>
            updateDo env GetJenkinsStatusCode kubeReq.id st (tr ++ [.decodePayload true])
        else
          -- default: "error unsupport credential type", http.StatusBadRequest
          ⟨.error 400, st, tr⟩
    else ⟨.error 403, st, [.decodeTop true, .authorize false]⟩

/-- Content branch of `GetCredentialHandler` (lines 526-600).  The HTML
scraping through goquery is abstracted: the scraped fields are summarized by
the environment `rawContent`, attached for the three scraped types; the
goquery document-parse error branch is not modelled. -/
def finishGet (env : Env) (cred : RemoteCred) (row : Option ProjectCredential)
    (getContent : String) (st : State) (tr : List Event) : HResult :=
  let response := formatCredentialResponse cred row
  if getContent ≠ "" then
    match env.contentErr with
    | some code =>
      ⟨.error (GetJenkinsStatusCode (.jenkins code)), st, tr ++ [.remoteGetContent false]⟩
    | none =>
      let response :=
        if response.typ == CredentialTypeKubeConfig
            || response.typ == CredentialTypeUsernamePassword
            || response.typ == CredentialTypeSsh then
          { response with content := some env.rawContent }
        else response
      ⟨.okCredential response, st, tr ++ [.remoteGetContent true]⟩
  else ⟨.okCredential response, st, tr⟩

/-- Source `GetCredentialHandler` (lines 493-603): authorize (there is no
request body to decode), fetch the remote credential, select the ownership
row by the remote id and domain ignoring `db.ErrNotFound`, merge, and
optionally fetch and scrape the raw content page. -/
def GetCredentialHandler (env : Env) (projectId credentialId operator role domain getContent : String)
    (st : State) : HResult :=
  if checkProjectUserInRole role [ProjectOwner, ProjectMaintainer] then
    let tr := [Event.authorize true]
    match getCredentialInFolder env domain credentialId projectId st with
    | (none, some e) =>
      ⟨.error (GetJenkinsStatusCode e), st, tr ++ [.remoteGet false]⟩
    | (none, none) =>
      -- not reachable with this client model
      ⟨.error 500, st, tr ++ [.remoteGet true]⟩
    | (some credentialResponse, _) =>
      let tr := tr ++ [Event.remoteGet true]
      match dbSelectOne env projectId credentialResponse.id credentialResponse.domain st with
      | .error e =>
        if e = .dbNotFound then
          finishGet env credentialResponse none getContent st (tr ++ [.dbSelect false])
        else
          ⟨.error (GetJenkinsStatusCode e), st, tr ++ [.dbSelect false]⟩
      | .ok row =>
        finishGet env credentialResponse (some row) getContent st (tr ++ [.dbSelect true])
  else ⟨.error 403, st, [.authorize false]⟩

/-- Source `GetCredentialsHandler` (lines 605-638): authorize, list the
remote credentials of the folder (all domains when the query domain is
empty), load the ownership rows with the same optional domain condition,
merge.  Listing performs no writes. -/
def GetCredentialsHandler (env : Env) (projectId operator role domain : String)
    (st : State) : HResult :=
  if checkProjectUserInRole role [ProjectOwner, ProjectMaintainer] then
    let tr := [Event.authorize true]
    match env.listErr with
    | some code =>
      ⟨.error (GetJenkinsStatusCode (.jenkins code)), st, tr ++ [.remoteList false]⟩
    | none =>
      let creds := st.remote.filter (fun c =>
        c.folder == projectId && (domain == "" || c.domain == domain))
      match env.dbListErr with
      | some e =>
        ⟨.error (GetJenkinsStatusCode e), st, tr ++ [.remoteList true, .dbSelect false]⟩
      | none =>
        let rows := st.localRows.filter (fun r =>
          r.projectId == projectId && (domain == "" || r.domain == domain))
        ⟨.okList (formatCredentialsResponse creds rows), st,
          tr ++ [.remoteList true, .dbSelect true]⟩
  else ⟨.error 403, st, [.authorize false]⟩

/-- External-effect events: remote-API calls and local-store operations. -/
def isEffect : Event → Bool
  | .remoteGet _ | .remoteList _ | .remoteGetContent _ | .remoteCreate _
  | .remoteUpdate _ | .remoteDelete _ | .dbInsert _ | .dbDelete _ | .dbSelect _ => true
  | _ => false

/-- Remote-API call events (any method of the remote client). -/
def isRemoteCall : Event → Bool
  | .remoteGet _ | .remoteList _ | .remoteGetContent _ | .remoteCreate _
  | .remoteUpdate _ | .remoteDelete _ => true
  | _ => false

/-- Remote-API mutation events (create, update, delete). -/
def isRemoteMutation : Event → Bool
  | .remoteCreate _ | .remoteUpdate _ | .remoteDelete _ => true
  | _ => false

/-- Local-store write events (row insert or row delete). -/
def isDbWrite : Event → Bool
  | .dbInsert _ | .dbDelete _ => true
  | _ => false

/-- Local-row insert events (either outcome). -/
def isDbInsert : Event → Bool
  | .dbInsert _ => true
  | _ => false

/-- Local-row delete events (either outcome). -/
def isDbDelete : Event → Bool
  | .dbDelete _ => true
  | _ => false

/-- Scanning the trace from the left, no event satisfying `p` occurs before a
successful authorization event. -/
def noEffectBeforeAuth (p : Event → Bool) : List Event → Bool
  | [] => true
  | e :: tr =>
    if e = .authorize true then true
    else if p e then false
    else noEffectBeforeAuth p tr

/-- Scanning the trace from the left, no event satisfying `q` occurs before
the first event satisfying `p` (so every `q` event is preceded by a `p`
event). -/
def onlyAfter (p q : Event → Bool) : List Event → Bool
  | [] => true
  | e :: tr =>
    if q e then false
    else if p e then true
    else onlyAfter p q tr

/-- The ownership row is backed by a remote credential in the same folder,
with the same credential id and the same domain. -/
def rowBacked (st : State) (row : ProjectCredential) : Bool :=
  st.remote.any (fun c =>
    c.folder == row.projectId && c.id == row.credentialId && c.domain == row.domain)

/-- Spec invariant: every ownership row is backed by a remote credential. -/
def Inv (st : State) : Bool :=
  st.localRows.all (rowBacked st)

/-- Remote-API read events (existence check, fetch, list, raw content). -/
def isRemoteRead : Event → Bool
  | .remoteGet _ | .remoteList _ | .remoteGetContent _ => true
  | _ => false

/-- Top-level body decode events (either outcome). -/
def isDecodeTop : Event → Bool
  | .decodeTop _ => true
  | _ => false

/-- Step rank of each event in the create handler: body decode, then
authorization, then payload decode, then the remote existence check, then
the remote creation, then the ownership-row insert. -/
def createStage : Event → Nat
  | .decodeTop _ => 0
  | .authorize _ => 1
  | .decodePayload _ => 2
  | .remoteGet _ => 3
  | .remoteCreate _ => 4
  | .dbInsert _ => 5
  | _ => 9

/-- Step rank of each event in the update handler: body decode, then
authorization, then the remote fetch, then the payload decode, then the
remote update. -/
def updateStage : Event → Nat
  | .decodeTop _ => 0
  | .authorize _ => 1
  | .remoteGet _ => 2
  | .decodePayload _ => 3
  | .remoteUpdate _ => 4
  | _ => 9

/-- Step rank of each event in the delete handler: body decode, then
authorization, then the remote deletion, then the ownership-row delete. -/
def deleteStage : Event → Nat
  | .decodeTop _ => 0
  | .authorize _ => 1
  | .remoteDelete _ => 2
  | .dbDelete _ => 3
  | _ => 9

/-- Step rank of each event in the single-get handler: authorization, then
the remote fetch, then the ownership-row select, then the raw content
fetch. -/
def getStage : Event → Nat
  | .authorize _ => 0
  | .remoteGet _ => 1
  | .dbSelect _ => 2
  | .remoteGetContent _ => 3
  | _ => 9

/-- Step rank of each event in the list handler: authorization, then the
remote listing, then the ownership-row load. -/
def listStage : Event → Nat
  | .authorize _ => 0
  | .remoteList _ => 1
  | .dbSelect _ => 2
  | _ => 9

/-- The trace's stages are strictly increasing: the steps happen in the
given order and each step happens at most once. -/
def stagesOrdered (stage : Event → Nat) : List Event → Bool
  | [] => true
  | [_] => true
  | e :: f :: tr => stage e < stage f && stagesOrdered stage (f :: tr)

/-- The new row list extends the old one by exactly one front row. -/
def gainsOneRow (old new : List ProjectCredential) : Prop :=
  ∃ row, new = row :: old

/-- The new row list equals the old one or extends it by exactly one row. -/
def gainsAtMostOneRow (old new : List ProjectCredential) : Prop :=
  new = old ∨ gainsOneRow old new

/-! ## Claim theorems -/

/-- C10: for every delete request whose body carries an empty (null) domain,
the local ownership row selected for deletion is the one whose domain column
equals "_" (the global domain); for a non-empty domain the row with exactly
that domain is selected. -/
theorem C10_delete_row_domain_substitution
    (env : Env) (projectId credentialId operator role : String)
    (request : DeleteCredentialRequest) (st : State)
    (hrole : checkProjectUserInRole role [ProjectOwner, ProjectMaintainer] = true)
    (hdel : env.deleteErr = none) (hdb : env.dbDeleteErr = none) :
    (DeleteCredentialHandler env projectId credentialId operator role
        (some request) st).state.localRows
      = st.localRows.filter (fun r =>
          !(r.projectId == projectId && r.credentialId == credentialId
            && r.domain == (if request.domain = "" then "_" else request.domain))) := by
  by_cases hdom : request.domain = "" <;>
    simp [DeleteCredentialHandler, hrole, hdel, hdb, hdom]

/-- Witness for C10 at a concrete input. -/
theorem C10_delete_row_domain_substitution_witness :
    (DeleteCredentialHandler {} "p" "c" "alice" "owner" (some ⟨""⟩)
        { remote := [], localRows := [⟨"p", "c", "_", "bob", 0⟩, ⟨"p", "c", "x", "bob", 0⟩] }).state.localRows
      = [⟨"p", "c", "x", "bob", 0⟩] := by
  have h := C10_delete_row_domain_substitution {} "p" "c" "alice" "owner" ⟨""⟩
    { remote := [], localRows := [⟨"p", "c", "_", "bob", 0⟩, ⟨"p", "c", "x", "bob", 0⟩] }
    (by decide) rfl rfl
  simpa using h

/-- C9: delete and single-get succeed even when no local ownership row exists
for the credential: a `db.ErrNotFound` result from the local delete or the
local select is ignored, so delete still responds with the id returned by the
remote deletion, and get still responds with the remote credential data, with
creator and create time absent. -/
theorem C9_local_notfound_ignored
    (env env' : Env) (projectId credentialId operator role domain : String)
    (request : DeleteCredentialRequest) (st : State) (cred : RemoteCred)
    (hrole : checkProjectUserInRole role [ProjectOwner, ProjectMaintainer] = true)
    (hdel : env.deleteErr = none) (hdb : env.dbDeleteErr = some .dbNotFound)
    (hget : env'.getCredErr = none)
    (hfind : st.remote.find? (fun c =>
        c.domain == domain && c.id == credentialId && c.folder == projectId) = some cred)
    (hsel : env'.dbSelectErr = none)
    (hrow : st.localRows.find? (fun r =>
        r.projectId == projectId && r.credentialId == cred.id
          && r.domain == cred.domain) = none) :
    ((DeleteCredentialHandler env projectId credentialId operator role
        (some request) st).resp = .ok credentialId
      ∧ (DeleteCredentialHandler env projectId credentialId operator role
          (some request) st).state.localRows = st.localRows)
    ∧ (GetCredentialHandler env' projectId credentialId operator role domain "" st).resp
        = .okCredential ⟨cred.id, CredentialTypeMap cred.typeName, cred.domain,
            none, none, none⟩ := by
  refine ⟨⟨?_, ?_⟩, ?_⟩
  · simp [DeleteCredentialHandler, hrole, hdel, hdb]
  · simp [DeleteCredentialHandler, hrole, hdel, hdb]
  · simp [GetCredentialHandler, getCredentialInFolder, dbSelectOne, finishGet,
      formatCredentialResponse, hrole, hget, hfind, hsel, hrow]

/-- Witness for C9 at a concrete input: one remote ssh credential, an empty
ownership table, a local delete reporting not-found. -/
theorem C9_local_notfound_ignored_witness :
    ((DeleteCredentialHandler { dbDeleteErr := some .dbNotFound } "p" "c1" "alice" "owner"
        (some ⟨"d"⟩)
        { remote := [⟨"d", "c1", "p", "SSH Username with private key"⟩], localRows := [] }).resp
        = .ok "c1"
      ∧ (DeleteCredentialHandler { dbDeleteErr := some .dbNotFound } "p" "c1" "alice" "owner"
          (some ⟨"d"⟩)
          { remote := [⟨"d", "c1", "p", "SSH Username with private key"⟩], localRows := [] }).state.localRows
        = [])
    ∧ (GetCredentialHandler {} "p" "c1" "alice" "owner" "d" ""
        { remote := [⟨"d", "c1", "p", "SSH Username with private key"⟩], localRows := [] }).resp
        = .okCredential ⟨"c1", CredentialTypeMap "SSH Username with private key", "d",
            none, none, none⟩ := by
  exact C9_local_notfound_ignored { dbDeleteErr := some .dbNotFound } {} "p" "c1" "alice"
    "owner" "d" ⟨"d"⟩
    { remote := [⟨"d", "c1", "p", "SSH Username with private key"⟩], localRows := [] }
    ⟨"d", "c1", "p", "SSH Username with private key"⟩
    (by decide) rfl rfl rfl (by decide) rfl (by decide)

/-- C4: for every create request of any of the four types whose credential id
already exists in the given domain of the project folder (the remote
existence check returns a credential), the handler responds with status 409,
and neither a remote credential creation nor a local ownership-row insertion
is performed: local and remote state are unchanged. -/
theorem C4_duplicate_id_conflict
    (env : Env) (projectId operator role : String) (request : CredentialRequest)
    (st : State) (cred : RemoteCred)
    (hrole : checkProjectUserInRole role [ProjectOwner, ProjectMaintainer] = true)
    (htype : request.type = CredentialTypeUsernamePassword ∨ request.type = CredentialTypeSsh
      ∨ request.type = CredentialTypeSecretText ∨ request.type = CredentialTypeKubeConfig)
    (hdf : request.content.decodeFails = false)
    (hfind : getCredentialInFolder env request.domain (request.content.id.getD "")
        projectId st = (some cred, none)) :
    (CreateCredentialHandler env projectId operator role (some request) st).resp = .error 409
    ∧ (CreateCredentialHandler env projectId operator role (some request) st).state = st
    ∧ (CreateCredentialHandler env projectId operator role
        (some request) st).trace.any isRemoteMutation = false
    ∧ (CreateCredentialHandler env projectId operator role
        (some request) st).trace.any isDbInsert = false := by
  rcases htype with h | h | h | h <;>
    simp [CreateCredentialHandler, createWithId, mapDecodeUsernamePassword, mapDecodeSsh,
      mapDecodeSecretText, mapDecodeKubeconfig, hrole, h, hdf, hfind,
      UsernamePasswordCredentialRequest.empty, SshCredentialRequest.empty,
      SecretTextCredentialRequest.empty, KubeconfigCredentialRequest.empty,
      CredentialTypeUsernamePassword, CredentialTypeSsh, CredentialTypeSecretText,
      CredentialTypeKubeConfig, isRemoteMutation, isDbInsert]

/-- Witness for C4 at a concrete input. -/
theorem C4_duplicate_id_conflict_witness :
    (CreateCredentialHandler {} "p" "alice" "owner"
        (some ⟨"ssh", "d", { id := some "c1" }⟩)
        { remote := [⟨"d", "c1", "p", "SSH Username with private key"⟩], localRows := [] }).resp
      = .error 409
    ∧ (CreateCredentialHandler {} "p" "alice" "owner"
        (some ⟨"ssh", "d", { id := some "c1" }⟩)
        { remote := [⟨"d", "c1", "p", "SSH Username with private key"⟩], localRows := [] }).state
      = { remote := [⟨"d", "c1", "p", "SSH Username with private key"⟩], localRows := [] }
    ∧ (CreateCredentialHandler {} "p" "alice" "owner"
        (some ⟨"ssh", "d", { id := some "c1" }⟩)
        { remote := [⟨"d", "c1", "p", "SSH Username with private key"⟩],
          localRows := [] }).trace.any isRemoteMutation = false
    ∧ (CreateCredentialHandler {} "p" "alice" "owner"
        (some ⟨"ssh", "d", { id := some "c1" }⟩)
        { remote := [⟨"d", "c1", "p", "SSH Username with private key"⟩],
          localRows := [] }).trace.any isDbInsert = false := by
  exact C4_duplicate_id_conflict {} "p" "alice" "owner" ⟨"ssh", "d", { id := some "c1" }⟩
    { remote := [⟨"d", "c1", "p", "SSH Username with private key"⟩], localRows := [] }
    ⟨"d", "c1", "p", "SSH Username with private key"⟩
    (by decide) (Or.inr (Or.inl rfl)) rfl (by decide)

/-- C7: for every handler, if decoding the JSON request body fails (top-level
body, or the type-specific payload in the create and update handlers) the
response status is 400, and if the caller is not project owner or maintainer
the response status is 403.  The get and list handlers read no body, so only
the authorization part applies to them. -/
theorem C7_decode_400_auth_403
    (env : Env) (projectId credentialId operator role domain getContent : String)
    (request : CredentialRequest) (dreq : DeleteCredentialRequest) (st : State) :
    ((CreateCredentialHandler env projectId operator role none st).resp = .error 400
      ∧ (UpdateCredentialHandler env projectId credentialId operator role none st).resp
          = .error 400
      ∧ (DeleteCredentialHandler env projectId credentialId operator role none st).resp
          = .error 400)
    ∧ (checkProjectUserInRole role [ProjectOwner, ProjectMaintainer] = true →
        request.content.decodeFails = true →
        ((request.type = CredentialTypeUsernamePassword ∨ request.type = CredentialTypeSsh
            ∨ request.type = CredentialTypeSecretText
            ∨ request.type = CredentialTypeKubeConfig) →
          (CreateCredentialHandler env projectId operator role (some request) st).resp
            = .error 400)
        ∧ (∀ cred tl, getCredentialInFolder env request.domain credentialId projectId st
              = (some cred, tl) →
            (CredentialTypeMap cred.typeName = CredentialTypeUsernamePassword
              ∨ CredentialTypeMap cred.typeName = CredentialTypeSsh
              ∨ CredentialTypeMap cred.typeName = CredentialTypeSecretText
              ∨ CredentialTypeMap cred.typeName = CredentialTypeKubeConfig) →
            (UpdateCredentialHandler env projectId credentialId operator role
                (some request) st).resp = .error 400))
    ∧ (checkProjectUserInRole role [ProjectOwner, ProjectMaintainer] = false →
        (CreateCredentialHandler env projectId operator role (some request) st).resp
            = .error 403
        ∧ (UpdateCredentialHandler env projectId credentialId operator role
            (some request) st).resp = .error 403
        ∧ (DeleteCredentialHandler env projectId credentialId operator role
            (some dreq) st).resp = .error 403
        ∧ (GetCredentialHandler env projectId credentialId operator role domain
            getContent st).resp = .error 403
        ∧ (GetCredentialsHandler env projectId operator role domain st).resp
            = .error 403) := by
  refine ⟨⟨rfl, rfl, rfl⟩, fun hrole hdf => ⟨fun htype => ?_, fun cred tl hfetch htype => ?_⟩,
    fun hrole => ?_⟩
  · rcases htype with h | h | h | h <;>
      simp [CreateCredentialHandler, mapDecodeUsernamePassword, mapDecodeSsh,
        mapDecodeSecretText, mapDecodeKubeconfig, hrole, h, hdf,
        CredentialTypeUsernamePassword, CredentialTypeSsh, CredentialTypeSecretText,
        CredentialTypeKubeConfig]
  · rcases htype with h | h | h | h <;>
      simp [UpdateCredentialHandler, mapDecodeUsernamePassword, mapDecodeSsh,
        mapDecodeSecretText, mapDecodeKubeconfig, hrole, h, hdf, hfetch,
        CredentialTypeUsernamePassword, CredentialTypeSsh, CredentialTypeSecretText,
        CredentialTypeKubeConfig]
  · exact ⟨by simp [CreateCredentialHandler, hrole],
      by simp [UpdateCredentialHandler, hrole],
      by simp [DeleteCredentialHandler, hrole],
      by simp [GetCredentialHandler, hrole],
      by simp [GetCredentialsHandler, hrole]⟩

/-- Witness for C7 at concrete inputs: a failed body decode reports 400, a
failed payload decode reports 400, and an unauthorized caller gets 403. -/
theorem C7_decode_400_auth_403_witness :
    (CreateCredentialHandler {} "p" "alice" "owner" none
        { remote := [], localRows := [] }).resp = .error 400
    ∧ (CreateCredentialHandler {} "p" "alice" "owner"
        (some ⟨"ssh", "d", { decodeFails := true }⟩)
        { remote := [], localRows := [] }).resp = .error 400
    ∧ (GetCredentialHandler {} "p" "c" "alice" "guest" "d" ""
        { remote := [], localRows := [] }).resp = .error 403 := by
  refine ⟨(C7_decode_400_auth_403 {} "p" "c" "alice" "owner" "d" ""
      ⟨"ssh", "d", { decodeFails := true }⟩ ⟨"d"⟩
      { remote := [], localRows := [] }).1.1, ?_, ?_⟩
  · exact ((C7_decode_400_auth_403 {} "p" "c" "alice" "owner" "d" ""
      ⟨"ssh", "d", { decodeFails := true }⟩ ⟨"d"⟩
      { remote := [], localRows := [] }).2.1 (by decide) rfl).1
      (Or.inr (Or.inl rfl))
  · exact ((C7_decode_400_auth_403 {} "p" "c" "alice" "guest" "d" ""
      ⟨"ssh", "d", { decodeFails := true }⟩ ⟨"d"⟩
      { remote := [], localRows := [] }).2.2 (by decide)).2.2.2.1

/-- C6: for every create request in which the remote creation succeeds and
the subsequent local ownership-row insertion fails, the handler issues no
compensating remote call: the remote calls of the run are exactly the
existence check and the creation, the created credential remains in the
remote state, the local table is unchanged, and the failure is reported as an
error response. -/
theorem C6_no_rollback_on_insert_failure
    (env : Env) (projectId operator role : String) (request : CredentialRequest)
    (st : State) (e : AppErr)
    (hrole : checkProjectUserInRole role [ProjectOwner, ProjectMaintainer] = true)
    (htype : request.type = CredentialTypeUsernamePassword ∨ request.type = CredentialTypeSsh
      ∨ request.type = CredentialTypeSecretText ∨ request.type = CredentialTypeKubeConfig)
    (hdf : request.content.decodeFails = false)
    (hget : env.getCredErr = none)
    (hnone : st.remote.find? (fun c => c.domain == request.domain
        && c.id == request.content.id.getD "" && c.folder == projectId) = none)
    (hcreate : env.createErr = none)
    (hins : env.dbInsertErr = some e) :
    (CreateCredentialHandler env projectId operator role (some request) st).state.remote
      = ⟨request.domain, request.content.id.getD "", projectId,
          remoteTypeNameOf request.type⟩ :: st.remote
    ∧ (CreateCredentialHandler env projectId operator role
        (some request) st).state.localRows = st.localRows
    ∧ (CreateCredentialHandler env projectId operator role
        (some request) st).trace.filter isRemoteCall
      = [.remoteGet false, .remoteCreate true]
    ∧ (CreateCredentialHandler env projectId operator role (some request) st).resp
      = .error (GetJenkinsStatusCode e) := by
  rcases htype with h | h | h | h <;>
    simp [CreateCredentialHandler, createWithId, createWithId.createDo, getCredentialInFolder,
      mapDecodeUsernamePassword, mapDecodeSsh, mapDecodeSecretText, mapDecodeKubeconfig,
      UsernamePasswordCredentialRequest.empty, SshCredentialRequest.empty,
      SecretTextCredentialRequest.empty, KubeconfigCredentialRequest.empty,
      hrole, h, hdf, hget, hnone, hcreate, hins, GetJenkinsStatusCode, isRemoteCall,
      CredentialTypeUsernamePassword, CredentialTypeSsh, CredentialTypeSecretText,
      CredentialTypeKubeConfig, remoteTypeNameOf]

/-- Witness for C6 at a concrete input: the creation succeeds, the row insert
fails, the created credential stays remote. -/
theorem C6_no_rollback_on_insert_failure_witness :
    (CreateCredentialHandler { dbInsertErr := some (.dbOther 500) } "p" "alice" "owner"
        (some ⟨"kubeconfig", "d", { id := some "c1" }⟩)
        { remote := [], localRows := [] }).state.remote
      = [⟨"d", "c1", "p", remoteTypeNameOf "kubeconfig"⟩]
    ∧ (CreateCredentialHandler { dbInsertErr := some (.dbOther 500) } "p" "alice" "owner"
        (some ⟨"kubeconfig", "d", { id := some "c1" }⟩)
        { remote := [], localRows := [] }).state.localRows = []
    ∧ (CreateCredentialHandler { dbInsertErr := some (.dbOther 500) } "p" "alice" "owner"
        (some ⟨"kubeconfig", "d", { id := some "c1" }⟩)
        { remote := [], localRows := [] }).trace.filter isRemoteCall
      = [.remoteGet false, .remoteCreate true]
    ∧ (CreateCredentialHandler { dbInsertErr := some (.dbOther 500) } "p" "alice" "owner"
        (some ⟨"kubeconfig", "d", { id := some "c1" }⟩)
        { remote := [], localRows := [] }).resp
      = .error (GetJenkinsStatusCode (.dbOther 500)) := by
  exact C6_no_rollback_on_insert_failure { dbInsertErr := some (.dbOther 500) } "p" "alice"
    "owner" ⟨"kubeconfig", "d", { id := some "c1" }⟩ { remote := [], localRows := [] }
    (.dbOther 500) (by decide) (Or.inr (Or.inr (Or.inr rfl))) rfl rfl (by decide) rfl rfl

/-- C8: for every update request the credential type used for dispatch is the
one stored remotely (the fetched credential type name mapped through
`CredentialTypeMap`), never the type field of the request body (the handler
result does not depend on that field at all); if the remote type maps to none
of the four supported types the handler responds 400 and performs no remote
update; and when it maps to a supported type the remote update runs with the
payload id preset to the path credential id. -/
theorem C8_update_dispatch_on_remote_type
    (env : Env) (projectId credentialId operator role : String)
    (request : CredentialRequest) (st : State) :
    (∀ t, UpdateCredentialHandler env projectId credentialId operator role
        (some { request with type := t }) st
      = UpdateCredentialHandler env projectId credentialId operator role
        (some request) st)
    ∧ (∀ cred tl, checkProjectUserInRole role [ProjectOwner, ProjectMaintainer] = true →
        getCredentialInFolder env request.domain credentialId projectId st
          = (some cred, tl) →
        CredentialTypeMap cred.typeName ≠ CredentialTypeUsernamePassword →
        CredentialTypeMap cred.typeName ≠ CredentialTypeSsh →
        CredentialTypeMap cred.typeName ≠ CredentialTypeSecretText →
        CredentialTypeMap cred.typeName ≠ CredentialTypeKubeConfig →
        (UpdateCredentialHandler env projectId credentialId operator role
            (some request) st).resp = .error 400
        ∧ (UpdateCredentialHandler env projectId credentialId operator role
            (some request) st).state = st
        ∧ (UpdateCredentialHandler env projectId credentialId operator role
            (some request) st).trace.any isRemoteMutation = false)
    ∧ (∀ cred tl, checkProjectUserInRole role [ProjectOwner, ProjectMaintainer] = true →
        getCredentialInFolder env request.domain credentialId projectId st
          = (some cred, tl) →
        (CredentialTypeMap cred.typeName = CredentialTypeUsernamePassword
          ∨ CredentialTypeMap cred.typeName = CredentialTypeSsh
          ∨ CredentialTypeMap cred.typeName = CredentialTypeSecretText
          ∨ CredentialTypeMap cred.typeName = CredentialTypeKubeConfig) →
        request.content.decodeFails = false →
        env.updateErr = none →
        (UpdateCredentialHandler env projectId credentialId operator role
            (some request) st).resp = .ok (request.content.id.getD credentialId)
        ∧ (UpdateCredentialHandler env projectId credentialId operator role
            (some request) st).trace.any (fun e => e = .remoteUpdate true) = true) := by
  refine ⟨fun t => rfl, fun cred tl hrole hfetch h1 h2 h3 h4 => ?_,
    fun cred tl hrole hfetch hmap hdf hupd => ?_⟩
  · simp [UpdateCredentialHandler, hrole, hfetch, h1, h2, h3, h4, isRemoteMutation]
  · rcases hmap with h | h | h | h <;>
      simp [UpdateCredentialHandler, updateDo, mapDecodeUsernamePassword, mapDecodeSsh,
        mapDecodeSecretText, mapDecodeKubeconfig,
        UsernamePasswordCredentialRequest.empty, SshCredentialRequest.empty,
        SecretTextCredentialRequest.empty, KubeconfigCredentialRequest.empty,
        hrole, hfetch, h, hdf, hupd,
        CredentialTypeUsernamePassword, CredentialTypeSsh, CredentialTypeSecretText,
        CredentialTypeKubeConfig]

/-- Witness for C8 at a concrete input: a remote credential of an unsupported
type yields 400 without an update, and one of a supported type is updated
under the remote type, whatever the body type field says. -/
theorem C8_update_dispatch_on_remote_type_witness :
    (UpdateCredentialHandler {} "p" "c1" "alice" "owner"
        (some ⟨"ssh", "d", {}⟩)
        { remote := [⟨"d", "c1", "p", "Certificate"⟩], localRows := [] }).resp = .error 400
    ∧ (UpdateCredentialHandler {} "p" "c1" "alice" "owner"
        (some ⟨"ssh", "d", {}⟩)
        { remote := [⟨"d", "c1", "p", "Secret text"⟩], localRows := [] }).resp = .ok "c1" := by
  refine ⟨((C8_update_dispatch_on_remote_type {} "p" "c1" "alice" "owner" ⟨"ssh", "d", {}⟩
      { remote := [⟨"d", "c1", "p", "Certificate"⟩], localRows := [] }).2.1
      ⟨"d", "c1", "p", "Certificate"⟩ none (by decide) (by decide)
      (by decide) (by decide) (by decide) (by decide)).1, ?_⟩
  exact ((C8_update_dispatch_on_remote_type {} "p" "c1" "alice" "owner" ⟨"ssh", "d", {}⟩
      { remote := [⟨"d", "c1", "p", "Secret text"⟩], localRows := [] }).2.2
      ⟨"d", "c1", "p", "Secret text"⟩ none (by decide) (by decide)
      (Or.inr (Or.inr (Or.inl (by decide)))) rfl rfl).1

/-- C3 counterexample: in the ssh branch of the update handler the remote
update fails with remote status 404 while the body decodes, the caller is
authorized and no duplicate id is involved, yet the handler writes status
500 (source line 436), not the passthrough translator result 404.  So the
claim that every non-overridden remote failure is reported with the remote
API status is false as stated. -/
theorem C3_counterexample_ssh_update_500 :
    (UpdateCredentialHandler { updateErr := some 404 } "p" "c1" "alice" "owner"
        (some ⟨"ssh", "d", {}⟩)
        { remote := [⟨"d", "c1", "p", "SSH Username with private key"⟩],
          localRows := [] }).resp = .error 500
    ∧ GetJenkinsStatusCode (.jenkins 404) = 404 ∧ (500 : Nat) ≠ 404 := by decide

/-- C3, amended: for every handler and every credential type, a remote-API
failure is reported with the remote API status obtained through the
passthrough translator, except the locally overridden cases (decode failure
400, authorization failure 403, duplicate id 409) and two further local
overrides: a failed existence check in the create handler is reported as 400
whatever the remote status was, and a failed remote update in the ssh branch
of the update handler is reported as 500. -/
theorem C3_remote_failure_status_passthrough
    (env : Env) (projectId credentialId operator role domain getContent : String)
    (request : CredentialRequest) (dreq : DeleteCredentialRequest) (st : State) (code : Nat)
    (hrole : checkProjectUserInRole role [ProjectOwner, ProjectMaintainer] = true) :
    ((request.type = CredentialTypeUsernamePassword ∨ request.type = CredentialTypeSsh
        ∨ request.type = CredentialTypeSecretText ∨ request.type = CredentialTypeKubeConfig) →
      request.content.decodeFails = false →
      env.getCredErr = none →
      st.remote.find? (fun c => c.domain == request.domain
        && c.id == request.content.id.getD "" && c.folder == projectId) = none →
      env.createErr = some code →
      (CreateCredentialHandler env projectId operator role (some request) st).resp
        = .error code)
    ∧ ((request.type = CredentialTypeUsernamePassword ∨ request.type = CredentialTypeSsh
        ∨ request.type = CredentialTypeSecretText ∨ request.type = CredentialTypeKubeConfig) →
      request.content.decodeFails = false →
      env.getCredErr = some code → code ≠ 404 →
      (CreateCredentialHandler env projectId operator role (some request) st).resp
        = .error 400)
    ∧ (env.deleteErr = some code →
      (DeleteCredentialHandler env projectId credentialId operator role
          (some dreq) st).resp = .error code)
    ∧ (env.getCredErr = some code →
      (UpdateCredentialHandler env projectId credentialId operator role
          (some request) st).resp = .error code)
    ∧ (∀ cred tl, getCredentialInFolder env request.domain credentialId projectId st
          = (some cred, tl) →
      (CredentialTypeMap cred.typeName = CredentialTypeUsernamePassword
        ∨ CredentialTypeMap cred.typeName = CredentialTypeSecretText
        ∨ CredentialTypeMap cred.typeName = CredentialTypeKubeConfig) →
      request.content.decodeFails = false →
      env.updateErr = some code →
      (UpdateCredentialHandler env projectId credentialId operator role
          (some request) st).resp = .error code)
    ∧ (∀ cred tl, getCredentialInFolder env request.domain credentialId projectId st
          = (some cred, tl) →
      CredentialTypeMap cred.typeName = CredentialTypeSsh →
      request.content.decodeFails = false →
      env.updateErr = some code →
      (UpdateCredentialHandler env projectId credentialId operator role
          (some request) st).resp = .error 500)
    ∧ (env.getCredErr = some code →
      (GetCredentialHandler env projectId credentialId operator role domain
          getContent st).resp = .error code)
    ∧ (∀ cred tl, env.getCredErr = none →
      getCredentialInFolder env domain credentialId projectId st = (some cred, tl) →
      env.dbSelectErr = none → getContent ≠ "" → env.contentErr = some code →
      (GetCredentialHandler env projectId credentialId operator role domain
          getContent st).resp = .error code)
    ∧ (env.listErr = some code →
      (GetCredentialsHandler env projectId operator role domain st).resp
        = .error code) := by
  refine ⟨fun htype hdf hget hnone hcreate => ?_, fun htype hdf hget hcode => ?_,
    fun hdel => ?_, fun hget => ?_, fun cred tl hfetch hmap hdf hupd => ?_,
    fun cred tl hfetch hmap hdf hupd => ?_, fun hget => ?_,
    fun cred tl hget hfetch hsel hcontent hcerr => ?_, fun hlist => ?_⟩
  · rcases htype with h | h | h | h <;>
      simp [CreateCredentialHandler, createWithId, createWithId.createDo,
        getCredentialInFolder, mapDecodeUsernamePassword, mapDecodeSsh,
        mapDecodeSecretText, mapDecodeKubeconfig,
        UsernamePasswordCredentialRequest.empty, SshCredentialRequest.empty,
        SecretTextCredentialRequest.empty, KubeconfigCredentialRequest.empty,
        hrole, h, hdf, hget, hnone, hcreate, GetJenkinsStatusCode,
        CredentialTypeUsernamePassword, CredentialTypeSsh, CredentialTypeSecretText,
        CredentialTypeKubeConfig]
  · rcases htype with h | h | h | h <;>
      simp [CreateCredentialHandler, createWithId, getCredentialInFolder,
        mapDecodeUsernamePassword, mapDecodeSsh, mapDecodeSecretText, mapDecodeKubeconfig,
        UsernamePasswordCredentialRequest.empty, SshCredentialRequest.empty,
        SecretTextCredentialRequest.empty, KubeconfigCredentialRequest.empty,
        hrole, h, hdf, hget, hcode, GetJenkinsStatusCode,
        CredentialTypeUsernamePassword, CredentialTypeSsh, CredentialTypeSecretText,
        CredentialTypeKubeConfig]
  · simp [DeleteCredentialHandler, hrole, hdel, GetJenkinsStatusCode]
  · simp [UpdateCredentialHandler, getCredentialInFolder, hrole, hget, GetJenkinsStatusCode]
  · rcases hmap with h | h | h <;>
      simp [UpdateCredentialHandler, updateDo, mapDecodeUsernamePassword,
        mapDecodeSecretText, mapDecodeKubeconfig,
        UsernamePasswordCredentialRequest.empty, SecretTextCredentialRequest.empty,
        KubeconfigCredentialRequest.empty,
        hrole, hfetch, h, hdf, hupd, GetJenkinsStatusCode,
        CredentialTypeUsernamePassword, CredentialTypeSsh, CredentialTypeSecretText,
        CredentialTypeKubeConfig]
  · simp [UpdateCredentialHandler, updateDo, mapDecodeSsh, SshCredentialRequest.empty,
      hrole, hfetch, hmap, hdf, hupd,
      CredentialTypeUsernamePassword, CredentialTypeSsh, CredentialTypeSecretText,
      CredentialTypeKubeConfig]
  · simp [GetCredentialHandler, getCredentialInFolder, hrole, hget, GetJenkinsStatusCode]
  · cases hfind : st.localRows.find? (fun r => r.projectId == projectId
        && r.credentialId == cred.id && r.domain == cred.domain) <;>
      simp [GetCredentialHandler, finishGet, dbSelectOne, hrole, hget, hfetch, hsel,
        hfind, hcontent, hcerr, GetJenkinsStatusCode]
  · simp [GetCredentialsHandler, hrole, hlist, GetJenkinsStatusCode]

/-- Witness for C3 (amended) at concrete inputs: a failed remote creation and
a failed remote deletion both report the remote status (here 503), and the
create existence-check failure reports 400. -/
theorem C3_remote_failure_status_passthrough_witness :
    (CreateCredentialHandler { createErr := some 503 } "p" "alice" "owner"
        (some ⟨"secret_text", "d", { id := some "c1" }⟩)
        { remote := [], localRows := [] }).resp = .error 503
    ∧ (DeleteCredentialHandler { deleteErr := some 503 } "p" "c1" "alice" "owner"
        (some ⟨"d"⟩) { remote := [], localRows := [] }).resp = .error 503
    ∧ (CreateCredentialHandler { getCredErr := some 503 } "p" "alice" "owner"
        (some ⟨"secret_text", "d", { id := some "c1" }⟩)
        { remote := [], localRows := [] }).resp = .error 400 := by
  refine ⟨(C3_remote_failure_status_passthrough { createErr := some 503 } "p" "c1" "alice"
      "owner" "d" "" ⟨"secret_text", "d", { id := some "c1" }⟩ ⟨"d"⟩
      { remote := [], localRows := [] } 503 (by decide)).1
      (Or.inr (Or.inr (Or.inl rfl))) rfl rfl rfl rfl, ?_, ?_⟩
  · exact (C3_remote_failure_status_passthrough { deleteErr := some 503 } "p" "c1" "alice"
      "owner" "d" "" ⟨"secret_text", "d", { id := some "c1" }⟩ ⟨"d"⟩
      { remote := [], localRows := [] } 503 (by decide)).2.2.1 rfl
  · exact (C3_remote_failure_status_passthrough { getCredErr := some 503 } "p" "c1" "alice"
      "owner" "d" "" ⟨"secret_text", "d", { id := some "c1" }⟩ ⟨"d"⟩
      { remote := [], localRows := [] } 503 (by decide)).2.1
      (Or.inr (Or.inr (Or.inl rfl))) rfl rfl (by decide)

set_option maxHeartbeats 1600000 in
/-- C2: for every create request (any of the four credential types) a local
ownership-row insertion is performed if and only if the remote creation call
succeeded, and with a healthy local store the table gains exactly the new row
on remote success and is unchanged otherwise; for every delete request the
local row deletion happens only after the remote deletion succeeded, and the
local table only ever shrinks; and the update handler performs no local-store
write at all. -/
theorem C2_local_row_lifecycle
    (env : Env) (projectId credentialId operator role : String)
    (cbody ubody : Option CredentialRequest) (dbody : Option DeleteCredentialRequest)
    (st : State) :
    ((CreateCredentialHandler env projectId operator role cbody st).trace.any isDbInsert
      = (CreateCredentialHandler env projectId operator role cbody st).trace.any
          (fun e => e = .remoteCreate true))
    ∧ gainsAtMostOneRow st.localRows
        (CreateCredentialHandler env projectId operator role cbody st).state.localRows
    ∧ (env.dbInsertErr = none →
        ((CreateCredentialHandler env projectId operator role cbody st).trace.any
              (fun e => e = .remoteCreate true) = false
          ∧ (CreateCredentialHandler env projectId operator role cbody st).state.localRows
              = st.localRows)
        ∨ ((CreateCredentialHandler env projectId operator role cbody st).trace.any
              (fun e => e = .remoteCreate true) = true
          ∧ gainsOneRow st.localRows
              (CreateCredentialHandler env projectId operator role
                cbody st).state.localRows))
    ∧ onlyAfter (fun e => e = .remoteDelete true) isDbDelete
        (DeleteCredentialHandler env projectId credentialId operator role dbody st).trace
        = true
    ∧ (DeleteCredentialHandler env projectId credentialId operator role
        dbody st).state.localRows.Sublist st.localRows
    ∧ (UpdateCredentialHandler env projectId credentialId operator role
        ubody st).state.localRows = st.localRows
    ∧ (UpdateCredentialHandler env projectId credentialId operator role
        ubody st).trace.any isDbWrite = false := by
  refine ⟨?_, ?_, fun hins => ?_, ?_, ?_, ?_, ?_⟩
  · unfold CreateCredentialHandler createWithId createWithId.createDo
    repeat' split
    all_goals simp [isDbInsert]
  · unfold CreateCredentialHandler createWithId createWithId.createDo
    repeat' split
    all_goals simp [gainsAtMostOneRow, gainsOneRow]
  · unfold CreateCredentialHandler createWithId createWithId.createDo
    repeat' split
    all_goals simp_all [gainsOneRow]
  · unfold DeleteCredentialHandler
    repeat' split
    all_goals simp [onlyAfter, isDbDelete]
  · unfold DeleteCredentialHandler
    repeat' split
    all_goals simp [List.filter_sublist]
  · unfold UpdateCredentialHandler updateDo
    repeat' split
    all_goals simp
    all_goals repeat' split
    all_goals simp
  · unfold UpdateCredentialHandler updateDo
    repeat' split
    all_goals simp [isDbWrite]
    all_goals repeat' split
    all_goals simp [isDbWrite]

/-- Witness for C2 at concrete inputs. -/
theorem C2_local_row_lifecycle_witness :
    ((CreateCredentialHandler {} "p" "alice" "owner"
        (some ⟨"ssh", "d", { id := some "c1" }⟩)
        { remote := [], localRows := [] }).trace.any isDbInsert
      = (CreateCredentialHandler {} "p" "alice" "owner"
          (some ⟨"ssh", "d", { id := some "c1" }⟩)
          { remote := [], localRows := [] }).trace.any (fun e => e = .remoteCreate true))
    ∧ onlyAfter (fun e => e = .remoteDelete true) isDbDelete
        (DeleteCredentialHandler {} "p" "c1" "alice" "owner" (some ⟨"d"⟩)
          { remote := [], localRows := [] }).trace = true
    ∧ (UpdateCredentialHandler {} "p" "c1" "alice" "owner"
        (some ⟨"ssh", "d", { id := some "c1" }⟩)
        { remote := [], localRows := [] }).state.localRows = [] := by
  refine ⟨(C2_local_row_lifecycle {} "p" "c1" "alice" "owner"
      (some ⟨"ssh", "d", { id := some "c1" }⟩) (some ⟨"ssh", "d", { id := some "c1" }⟩)
      (some ⟨"d"⟩) { remote := [], localRows := [] }).1, ?_, ?_⟩
  · exact (C2_local_row_lifecycle {} "p" "c1" "alice" "owner"
      (some ⟨"ssh", "d", { id := some "c1" }⟩) (some ⟨"ssh", "d", { id := some "c1" }⟩)
      (some ⟨"d"⟩) { remote := [], localRows := [] }).2.2.2.1
  · exact (C2_local_row_lifecycle {} "p" "c1" "alice" "owner"
      (some ⟨"ssh", "d", { id := some "c1" }⟩) (some ⟨"ssh", "d", { id := some "c1" }⟩)
      (some ⟨"d"⟩) { remote := [], localRows := [] }).2.2.2.2.2.1

/-- C5 counterexample: a successful create request performs two remote-API
calls (the existence check and the creation), so the claim that each handler
invokes one remote-API method per request is false as stated; the claimed
uniform step sequence also fails for the read handlers, which decode no
request body. -/
theorem C5_counterexample_two_remote_calls :
    ((CreateCredentialHandler {} "p" "alice" "owner"
        (some ⟨"ssh", "d", { id := some "c1" }⟩)
        { remote := [], localRows := [] }).trace.filter isRemoteCall).length = 2 := by
  decide

set_option maxHeartbeats 1600000 in
/-- C5, amended: the create, update and delete handlers execute their steps
in order, each at most once per request (create: body decode, authorization,
payload decode, remote existence check, remote creation, row insert; update:
body decode, authorization, remote fetch, payload decode, remote update;
delete: body decode, authorization, remote deletion, row delete), and the
read handlers likewise (authorization, remote read(s), row select) with no
body decode; every external effect happens only after the authorization
check has succeeded; each handler performs at most one remote mutating call
per request, any mutation comes after a remote read in the create and update
handlers, and a local row operation only follows a successful remote
mutation. -/
theorem C5_auth_precedes_effects_one_mutation
    (env : Env) (projectId credentialId operator role domain getContent : String)
    (cbody ubody : Option CredentialRequest) (dbody : Option DeleteCredentialRequest)
    (st : State) :
    (noEffectBeforeAuth isEffect
        (CreateCredentialHandler env projectId operator role cbody st).trace = true
      ∧ noEffectBeforeAuth isEffect
        (UpdateCredentialHandler env projectId credentialId operator role ubody st).trace
          = true
      ∧ noEffectBeforeAuth isEffect
        (DeleteCredentialHandler env projectId credentialId operator role dbody st).trace
          = true
      ∧ noEffectBeforeAuth isEffect
        (GetCredentialHandler env projectId credentialId operator role domain
          getContent st).trace = true
      ∧ noEffectBeforeAuth isEffect
        (GetCredentialsHandler env projectId operator role domain st).trace = true)
    ∧ (((CreateCredentialHandler env projectId operator role
          cbody st).trace.filter isRemoteMutation).length ≤ 1
      ∧ ((UpdateCredentialHandler env projectId credentialId operator role
          ubody st).trace.filter isRemoteMutation).length ≤ 1
      ∧ ((DeleteCredentialHandler env projectId credentialId operator role
          dbody st).trace.filter isRemoteMutation).length ≤ 1
      ∧ ((GetCredentialHandler env projectId credentialId operator role domain
          getContent st).trace.filter isRemoteMutation).length ≤ 1
      ∧ ((GetCredentialsHandler env projectId operator role
          domain st).trace.filter isRemoteMutation).length ≤ 1)
    ∧ (stagesOrdered createStage
          (CreateCredentialHandler env projectId operator role cbody st).trace = true
      ∧ stagesOrdered updateStage
          (UpdateCredentialHandler env projectId credentialId operator role
            ubody st).trace = true
      ∧ stagesOrdered deleteStage
          (DeleteCredentialHandler env projectId credentialId operator role
            dbody st).trace = true
      ∧ stagesOrdered getStage
          (GetCredentialHandler env projectId credentialId operator role domain
            getContent st).trace = true
      ∧ stagesOrdered listStage
          (GetCredentialsHandler env projectId operator role domain st).trace = true)
    ∧ (onlyAfter isRemoteRead isRemoteMutation
          (CreateCredentialHandler env projectId operator role cbody st).trace = true
      ∧ onlyAfter isRemoteRead isRemoteMutation
          (UpdateCredentialHandler env projectId credentialId operator role
            ubody st).trace = true)
    ∧ (onlyAfter (fun e => e = .remoteCreate true) isDbInsert
          (CreateCredentialHandler env projectId operator role cbody st).trace = true
      ∧ onlyAfter (fun e => e = .remoteDelete true) isDbDelete
          (DeleteCredentialHandler env projectId credentialId operator role
            dbody st).trace = true)
    ∧ ((GetCredentialHandler env projectId credentialId operator role domain
          getContent st).trace.any isDecodeTop = false
      ∧ (GetCredentialsHandler env projectId operator
          role domain st).trace.any isDecodeTop = false) := by
  refine ⟨⟨?_, ?_, ?_, ?_, ?_⟩, ⟨?_, ?_, ?_, ?_, ?_⟩, ⟨?_, ?_, ?_, ?_, ?_⟩,
    ⟨?_, ?_⟩, ⟨?_, ?_⟩, ?_, ?_⟩
  · unfold CreateCredentialHandler createWithId createWithId.createDo
    repeat' split
    all_goals simp [noEffectBeforeAuth, isEffect]
  · unfold UpdateCredentialHandler updateDo
    repeat' split
    all_goals simp [noEffectBeforeAuth, isEffect]
    all_goals repeat' split
    all_goals simp [noEffectBeforeAuth, isEffect]
  · unfold DeleteCredentialHandler
    repeat' split
    all_goals simp [noEffectBeforeAuth, isEffect]
  · unfold GetCredentialHandler finishGet
    repeat' split
    all_goals simp [noEffectBeforeAuth, isEffect]
  · unfold GetCredentialsHandler
    repeat' split
    all_goals simp [noEffectBeforeAuth, isEffect]
  · unfold CreateCredentialHandler createWithId createWithId.createDo
    repeat' split
    all_goals simp [isRemoteMutation]
  · unfold UpdateCredentialHandler updateDo
    repeat' split
    all_goals simp [isRemoteMutation]
    all_goals repeat' split
    all_goals simp [isRemoteMutation]
  · unfold DeleteCredentialHandler
    repeat' split
    all_goals simp [isRemoteMutation]
  · unfold GetCredentialHandler finishGet
    repeat' split
    all_goals simp [isRemoteMutation]
  · unfold GetCredentialsHandler
    repeat' split
    all_goals simp [isRemoteMutation]
  · unfold CreateCredentialHandler createWithId createWithId.createDo
    repeat' split
    all_goals simp [stagesOrdered, createStage]
  · unfold UpdateCredentialHandler updateDo
    repeat' split
    all_goals simp [stagesOrdered, updateStage]
    all_goals repeat' split
    all_goals simp [stagesOrdered, updateStage]
  · unfold DeleteCredentialHandler
    repeat' split
    all_goals simp [stagesOrdered, deleteStage]
  · unfold GetCredentialHandler finishGet
    repeat' split
    all_goals simp [stagesOrdered, getStage]
  · unfold GetCredentialsHandler
    repeat' split
    all_goals simp [stagesOrdered, listStage]
  · unfold CreateCredentialHandler createWithId createWithId.createDo
    repeat' split
    all_goals simp [onlyAfter, isRemoteRead, isRemoteMutation]
  · unfold UpdateCredentialHandler updateDo
    repeat' split
    all_goals simp [onlyAfter, isRemoteRead, isRemoteMutation]
    all_goals repeat' split
    all_goals simp [onlyAfter, isRemoteRead, isRemoteMutation]
  · unfold CreateCredentialHandler createWithId createWithId.createDo
    repeat' split
    all_goals simp [onlyAfter, isDbInsert]
  · unfold DeleteCredentialHandler
    repeat' split
    all_goals simp [onlyAfter, isDbDelete]
  · unfold GetCredentialHandler finishGet
    repeat' split
    all_goals simp [isDecodeTop]
  · unfold GetCredentialsHandler
    repeat' split
    all_goals simp [isDecodeTop]

/-- Extending only the remote store preserves the ownership invariant. -/
theorem Inv_extend_remote (c : RemoteCred) (st : State) (h : Inv st = true) :
    Inv { remote := c :: st.remote, localRows := st.localRows } = true := by
  simp only [Inv, List.all_eq_true, rowBacked, List.any_cons, Bool.or_eq_true] at h ⊢
  intro row hrow
  exact Or.inr (h row hrow)

/-- Adding a remote credential together with its matching ownership row
preserves the ownership invariant. -/
theorem Inv_create_extend (domain credentialId projectId ty operator : String)
    (st : State) (h : Inv st = true) :
    Inv { remote := ⟨domain, credentialId, projectId, ty⟩ :: st.remote,
          localRows := NewProjectCredential projectId credentialId domain operator
            :: st.localRows } = true := by
  simp only [Inv, List.all_eq_true, rowBacked, List.any_cons, Bool.or_eq_true,
    NewProjectCredential, List.mem_cons] at h ⊢
  rintro row (rfl | hrow)
  · exact Or.inl (by simp)
  · exact Or.inr (h row hrow)

/-- Removing the remote credentials and the ownership rows that carry the
same (project, credential id, domain) key preserves the ownership
invariant. -/
theorem Inv_delete_filter (projectId credentialId dom : String) (st : State)
    (h : Inv st = true) :
    Inv { remote := st.remote.filter (fun c =>
            !(c.domain == dom && c.id == credentialId && c.folder == projectId)),
          localRows := st.localRows.filter (fun r =>
            !(r.projectId == projectId && r.credentialId == credentialId
              && r.domain == dom)) } = true := by
  simp only [Inv, List.all_eq_true, rowBacked, List.any_eq_true, Bool.and_eq_true,
    beq_iff_eq, List.mem_filter] at h ⊢
  intro row hrow
  obtain ⟨hrow1, hkeep⟩ := hrow
  obtain ⟨c, hc, ⟨hf, hi⟩, hd⟩ := h row hrow1
  refine ⟨c, ⟨hc, ?_⟩, ⟨hf, hi⟩, hd⟩
  rw [hf, hi, hd]
  revert hkeep
  cases h1 : row.projectId == projectId <;> cases h2 : row.credentialId == credentialId <;>
    cases h3 : row.domain == dom <;> simp_all

/-- C1 counterexample: from the empty state a successful create reaches a
state satisfying the ownership invariant; a following delete whose remote
deletion succeeds but whose local row deletion fails leaves the ownership row
behind with no remote credential, so the invariant does not hold in every
reachable state and is not preserved by every handler step. -/
theorem C1_counterexample_orphan_row :
    Inv (CreateCredentialHandler {} "p" "alice" "owner"
        (some ⟨"ssh", "d", { id := some "c1" }⟩)
        { remote := [], localRows := [] }).state = true
    ∧ Inv (DeleteCredentialHandler { dbDeleteErr := some (.dbOther 500) } "p" "c1"
        "alice" "owner" (some ⟨"d"⟩)
        (CreateCredentialHandler {} "p" "alice" "owner"
          (some ⟨"ssh", "d", { id := some "c1" }⟩)
          { remote := [], localRows := [] }).state).state = false := by
  decide

set_option maxHeartbeats 1600000 in
/-- C1, amended: every create, update, get and list handler step preserves
the invariant that each ProjectCredential ownership row is backed by a remote
credential of the same project folder, credential id and domain; a delete
step preserves it provided its local row deletion does not fail and the
request domain is non-empty (a failing local deletion, or the empty-domain
substitution that retargets the local deletion at the "_" row, can orphan a
row). -/
theorem C1_ownership_invariant_preserved
    (env : Env) (projectId credentialId operator role domain getContent : String)
    (cbody ubody : Option CredentialRequest) (dbody : DeleteCredentialRequest)
    (st : State) (hInv : Inv st = true) :
    Inv (CreateCredentialHandler env projectId operator role cbody st).state = true
    ∧ Inv (UpdateCredentialHandler env projectId credentialId operator role
        ubody st).state = true
    ∧ Inv (GetCredentialHandler env projectId credentialId operator role domain
        getContent st).state = true
    ∧ Inv (GetCredentialsHandler env projectId operator role domain st).state = true
    ∧ (env.dbDeleteErr = none → dbody.domain ≠ "" →
        Inv (DeleteCredentialHandler env projectId credentialId operator role
          (some dbody) st).state = true) := by
  refine ⟨?_, ?_, ?_, ?_, fun hdb hdom => ?_⟩
  · unfold CreateCredentialHandler createWithId createWithId.createDo
    repeat' split
    all_goals first
      | exact hInv
      | exact Inv_extend_remote _ _ hInv
      | exact Inv_create_extend _ _ _ _ _ _ hInv
  · unfold UpdateCredentialHandler updateDo
    repeat' split
    all_goals try exact hInv
    all_goals simp only []
    all_goals repeat' split
    all_goals exact hInv
  · unfold GetCredentialHandler finishGet
    repeat' split
    all_goals exact hInv
  · unfold GetCredentialsHandler
    repeat' split
    all_goals exact hInv
  · unfold DeleteCredentialHandler
    repeat' split
    all_goals first
      | exact hInv
      | exact Inv_delete_filter _ _ _ _ hInv
      | simp_all

/-- Witness for C1 (amended) at a concrete input: a successful create then a
successful delete, both preserving the invariant. -/
theorem C1_ownership_invariant_preserved_witness :
    Inv (CreateCredentialHandler {} "p" "alice" "owner"
        (some ⟨"ssh", "d", { id := some "c1" }⟩)
        { remote := [], localRows := [] }).state = true
    ∧ Inv (DeleteCredentialHandler {} "p" "c1" "alice" "owner" (some ⟨"d"⟩)
        { remote := [⟨"d", "c1", "p", "SSH Username with private key"⟩],
          localRows := [⟨"p", "c1", "d", "alice", 0⟩] }).state = true := by
  refine ⟨(C1_ownership_invariant_preserved {} "p" "c1" "alice" "owner" "d" ""
      (some ⟨"ssh", "d", { id := some "c1" }⟩) none ⟨"d"⟩
      { remote := [], localRows := [] } (by decide)).1, ?_⟩
  exact (C1_ownership_invariant_preserved {} "p" "c1" "alice" "owner" "d" ""
      (some ⟨"ssh", "d", { id := some "c1" }⟩) none ⟨"d"⟩
      { remote := [⟨"d", "c1", "p", "SSH Username with private key"⟩],
        localRows := [⟨"p", "c1", "d", "alice", 0⟩] } (by decide)).2.2.2.2 rfl
      (by decide)

end Devops
